import Mathlib

/-!
Verification development for the Copilot CLI/SDK integration layer
(`src/claude/copilot_integration.py` and `src/claude/copilot_sdk_integration.py`).

The Python code is shallowly embedded: pure argument-list construction becomes a
Lean function; the effectful subprocess / SDK-client interactions are modelled
by passing the outcome of each external interaction (subprocess completion,
SDK resume/create/send results, external-channel future resolution, on-disk
session-state contents) as explicit parameters, and by returning the resulting
state (active-process table, session map) and the trace of client actions
explicitly.  Exceptions become `Except` values; the three exception kinds that
the module distinguishes (`ClaudeProcessError`, `ClaudeTimeoutError`, any other
re-raised exception) become the constructors of `ExecError`.  Wall-clock
quantities (`duration_ms`, `cost`) are omitted from the response model; they
are never consulted by any control path.
-/

/-- Embeds Python `str.strip()`: remove leading and trailing whitespace.
Implemented over the character list so that it reduces inside the kernel. -/
def pyStrip (s : String) : String :=
  ⟨((s.data.dropWhile Char.isWhitespace).reverse.dropWhile Char.isWhitespace).reverse⟩

/-- Truthiness of an optional string under Python semantics: `None` and the
empty string are falsy, any other string is truthy.  Embeds the Python idiom
`if x:` / `x or y` for `Optional[str]` values. -/
def optTruthy : Option String → Bool
  | none => false
  | some s => s != ""

/-- The three exception kinds surfaced by the integration layer:
`ClaudeProcessError`, `ClaudeTimeoutError`, and any other exception that is
re-raised unchanged. -/
inductive ExecError where
  | processError (msg : String)
  | timeoutError (msg : String)
  | otherError (msg : String)
deriving DecidableEq, Repr

/-- Response record from a Copilot execution (`CopilotResponse`): the fields
consulted by control flow.  Timing/cost fields are real-time quantities and are
omitted. -/
structure CopilotResponse where
  content : String
  session_id : String
deriving DecidableEq, Repr

namespace CopilotProcessManager

/-- Embeds `CopilotProcessManager._get_copilot_binary`: the configured
`copilot_binary_path` when set and truthy, else the default `"copilot"`. -/
def _get_copilot_binary (copilot_binary_path : Option String) : String :=
  if optTruthy copilot_binary_path then copilot_binary_path.getD "" else "copilot"

/-- Embeds `CopilotProcessManager._build_command`: `[binary]`, then
`["--resume", session_id]` when `continue_session` holds and `session_id` is
truthy, then `["-p", prompt]`, `["--allow-all"]`, `["-s"]`, and
`["--model", model]` when `model` is truthy. -/
def _build_command (copilot_binary_path : Option String) (prompt : String)
    (session_id : Option String) (continue_session : Bool) (model : String) :
    List String :=
  let cmd := [_get_copilot_binary copilot_binary_path]
  let cmd := if continue_session && optTruthy session_id then
      cmd ++ ["--resume", session_id.getD ""] else cmd
  let cmd := cmd ++ ["-p", prompt]
  let cmd := cmd ++ ["--allow-all"]
  let cmd := cmd ++ ["-s"]
  if model != "" then cmd ++ ["--model", model] else cmd

end CopilotProcessManager

/-- Outcome of the one external subprocess interaction inside
`CopilotProcessManager.execute_command`: `spawnFailed` models an exception from
`create_subprocess_exec` (before the process is registered), `timeout` models
`asyncio.TimeoutError` from the awaited `communicate`, `completed` carries the
return code and the decoded stdout/stderr texts, and `commFailed` models any
other exception raised while the process is registered. -/
inductive CommOutcome where
  | spawnFailed (msg : String)
  | timeout
  | completed (returncode : Int) (stdout : String) (stderr : String)
  | commFailed (msg : String)
deriving DecidableEq, Repr

/-- Result state of one `CopilotProcessManager.execute_command` invocation:
the returned value or raised exception, whether the subprocess was force
killed, and the `active_processes` table after the `finally` cleanup. -/
structure CLIExecResult where
  outcome : Except ExecError CopilotResponse
  killed : Bool
  active_processes : List String

namespace CopilotProcessManager

/-- Embeds `CopilotProcessManager.execute_command` (the CLI path) as a function
of the subprocess interaction outcome.  `budget` is
`config.claude_timeout_seconds`, `process_id` the UUID generated for this
invocation, `active` the `active_processes` table at entry, and
`found_session` the result of the post-execution
`_find_session_id_for_directory` lookup.  The `finally` block pops
`process_id` on every path; the timeout handler kills the process when the id
is registered; a non-zero exit with blank stdout raises `ClaudeProcessError`
carrying the stripped stderr (or an exit-code message when stderr is blank). -/
def execute_command (budget : Nat) (comm : CommOutcome) (process_id : String)
    (active : List String) (found_session : Option String) : CLIExecResult :=
  match comm with
  | .spawnFailed msg =>
      { outcome := .error (.otherError msg),
        killed := false,
        active_processes := active.erase process_id }
  | .timeout =>
      let active1 := active ++ [process_id]
      { outcome := .error (.timeoutError
          ("Copilot timed out after " ++ toString budget ++ "s")),
        killed := active1.contains process_id,
        active_processes := active1.erase process_id }
  | .commFailed msg =>
      { outcome := .error (.otherError msg),
        killed := false,
        active_processes := (active ++ [process_id]).erase process_id }
  | .completed rc stdout stderr =>
      let active1 := active ++ [process_id]
      if rc != 0 && pyStrip stdout == "" then
        let emsg := if pyStrip stderr != "" then pyStrip stderr
                    else "Copilot exited with code " ++ toString rc
        { outcome := .error (.processError ("Copilot error: " ++ emsg)),
          killed := false,
          active_processes := active1.erase process_id }
      else
        { outcome := .ok { content := pyStrip stdout,
                           session_id := found_session.getD "" },
          killed := false,
          active_processes := active1.erase process_id }

end CopilotProcessManager

/-- `hasAdjPair a b l` holds when `l` contains the element `a` immediately
followed by the element `b`. -/
def hasAdjPair (a b : String) : List String → Bool
  | x :: y :: rest => (x == a && y == b) || hasAdjPair a b (y :: rest)
  | _ => false

/-- Boolean lexicographic comparison of character lists by code point,
mirroring Python string comparison; reduces inside the kernel. -/
def charListLt : List Char → List Char → Bool
  | _, [] => false
  | [], _ :: _ => true
  | a :: as, b :: bs => decide (a < b) || (a == b && charListLt as bs)

/-- Embeds Python `<` on strings (code-point lexicographic order), as used by
the `updated_at > best_updated_at` comparison of the session scan. -/
def pyStrLt (a b : String) : Bool := charListLt a.data b.data

/-- Parsed contents of one `workspace.yaml`: the three fields consulted by
`_find_session_id_for_directory` (`cwd`, `updated_at`, `id`), each defaulting
to `""` via `data.get`.  Paths are modelled as normalised strings, so the
`Path(cwd) == working_directory` comparison becomes string equality. -/
structure WorkspaceData where
  cwd : String
  updated_at : String
  id : String
deriving DecidableEq, Repr

/-- One entry of the on-disk session-state directory.  `workspace` is `none`
when `workspace.yaml` is missing, unreadable or unparsable — the cases the
source skips via the `exists` check and the swallowed per-entry exception. -/
structure SessionDirEntry where
  is_dir : Bool
  workspace : Option WorkspaceData
deriving DecidableEq, Repr

namespace CopilotProcessManager

/-- The workspace record a session-state entry contributes to the scan of
`_find_session_id_for_directory`, or `none` when the entry is skipped (not a
directory, missing/broken `workspace.yaml`, `cwd` mismatch, or blank `id`). -/
def entryCandidate (working_directory : String) (e : SessionDirEntry) :
    Option WorkspaceData :=
  if e.is_dir then
    match e.workspace with
    | some d =>
        if d.cwd == working_directory && d.id != "" then some d else none
    | none => none
  else none

/-- The scanning loop of `_find_session_id_for_directory`, threading the
accumulator `(best_session_id, best_updated_at)`; an entry replaces the best
pair when no best exists yet or its `updated_at` is strictly greater. -/
def findLoop (working_directory : String) :
    List SessionDirEntry → Option String × Option String →
      Option String × Option String
  | [], acc => acc
  | e :: rest, acc =>
      findLoop working_directory rest
        (match entryCandidate working_directory e with
         | none => acc
         | some d =>
             match acc.2 with
             | none => (some d.id, some d.updated_at)
             | some b =>
                 if pyStrLt b d.updated_at then (some d.id, some d.updated_at)
                 else acc)

/-- Embeds `CopilotProcessManager._find_session_id_for_directory`:
`dir_exists` is whether `COPILOT_SESSION_DIR` exists, `entries` the listing of
that directory, and the result the `best_session_id` of the scan. -/
def _find_session_id_for_directory (dir_exists : Bool)
    (entries : List SessionDirEntry) (working_directory : String) :
    Option String :=
  if dir_exists then (findLoop working_directory entries (none, none)).1 else none

end CopilotProcessManager

/-- The workspace records that survive the skip conditions of the scan, in
directory order. -/
def candidates (wd : String) (entries : List SessionDirEntry) :
    List WorkspaceData :=
  entries.filterMap (CopilotProcessManager.entryCandidate wd)

/-- The accumulator loop of the scan restricted to the surviving workspace
records; `findLoop` factors through it (see `findLoop_eq_selectBest`). -/
def selectBest : List WorkspaceData → Option String × Option String →
    Option String × Option String
  | [], acc => acc
  | d :: ds, acc =>
      selectBest ds
        (match acc.2 with
         | none => (some d.id, some d.updated_at)
         | some b =>
             if pyStrLt b d.updated_at then (some d.id, some d.updated_at)
             else acc)

/-- Example session-state entry: older session for `/project`. -/
def exampleEntryStale : SessionDirEntry :=
  ⟨true, some ⟨"/project", "2026-02-19T09:00:00Z", "sess-old"⟩⟩

/-- Example session-state entry: newer session for `/project`. -/
def exampleEntryFresh : SessionDirEntry :=
  ⟨true, some ⟨"/project", "2026-02-20T10:00:00Z", "sess-new"⟩⟩

/-- Example session-state entry with an unreadable `workspace.yaml`. -/
def exampleEntryBad : SessionDirEntry := ⟨true, none⟩

/-- Example session-state directory listing. -/
def exampleEntries : List SessionDirEntry := [exampleEntryStale, exampleEntryFresh]

/-- The in-memory session map of `CopilotSDKManager` (`self._session_map`):
a partial map from key strings to Copilot session ids. -/
def SessionMap := String → Option String

/-- One client-level session action attempted by the SDK execute path. -/
inductive ClientAction where
  | resume (session_id : String)
  | create
deriving DecidableEq, Repr

/-- Outcome of `session.send_and_wait` together with the event collection: the
final content on success, an `asyncio.TimeoutError`, or any other exception.
The streaming/event plumbing only accumulates the content and is absorbed
into the `ok` payload. -/
inductive SendOutcome where
  | ok (content : String)
  | timeout
  | failed (msg : String)
deriving DecidableEq, Repr

/-- Deterministic oracle for the `CopilotClient` interactions consulted by
`CopilotSDKManager.execute_command`: `resume_session sid` yields the resumed
session's id or raises, `create_session` yields the created session's id or
raises, and `send_and_wait sid` yields the final content or raises. -/
structure SDKBehavior where
  resume_session : String → Except String String
  create_session : Except String String
  send_and_wait : String → SendOutcome

/-- Result of one `CopilotSDKManager.execute_command`: the ordered list of
client session actions attempted, the returned response or raised exception,
and the session map afterwards. -/
structure SDKExecResult where
  actions : List ClientAction
  outcome : Except ExecError CopilotResponse
  session_map : SessionMap

/-- Reply of the permission-request handler: the dict
`{"kind": ..., "rules": []}`. -/
structure PermissionReply where
  kind : String
  rules : List String
deriving DecidableEq, Repr

/-- Reply of the ask-user handler: the dict
`{"answer": ..., "wasFreeform": ...}`. -/
structure AskUserReply where
  answer : String
  wasFreeform : Bool
deriving DecidableEq, Repr

namespace CopilotSDKManager

/-- Embeds `CopilotSDKManager._session_key`: the f-string
`f"{user_id}:{working_directory}"`. -/
def _session_key (user_id : Int) (working_directory : String) : String :=
  toString user_id ++ ":" ++ working_directory

/-- Embeds `CopilotSDKManager.forget_session`:
`self._session_map.pop(key, None)`. -/
def forget_session (m : SessionMap) (user_id : Int)
    (working_directory : String) : SessionMap :=
  fun k => if k = _session_key user_id working_directory then none else m k

/-- The permission-request rendezvous budget:
`asyncio.wait_for(asyncio.shield(future), timeout=120)`. -/
def permission_timeout : Nat := 120

/-- The ask-user rendezvous budget:
`asyncio.wait_for(asyncio.shield(future), timeout=300)`. -/
def ask_user_timeout : Nat := 300

/-- Semantics of `asyncio.wait_for` on a single-assignment future:
`resolution = some (t, v)` means the responder resolves the future with value
`v` at `t` seconds after the wait begins, `none` that it never resolves it.
Resolution strictly inside the budget yields the value, otherwise the wait
raises `TimeoutError` (at the boundary instant the timer is taken to win). -/
def await_with_timeout {α : Type} (budget : Nat)
    (resolution : Option (Nat × α)) : Option α :=
  match resolution with
  | some (t, v) => if t < budget then some v else none
  | none => none

/-- Embeds `_on_permission_request`: with a registered `stream_callback` the
request is forwarded and a `Future[bool]` awaited for at most
`permission_timeout` seconds, a timeout counting as not approved; with no
callback the future is resolved to `True` immediately.  `channel` is the
external responder's resolution of the future. -/
def _on_permission_request (has_stream_callback : Bool)
    (channel : Option (Nat × Bool)) : PermissionReply :=
  let futureValue : Option Bool :=
    if has_stream_callback then await_with_timeout permission_timeout channel
    else some true
  let approved := futureValue.getD false
  if approved then { kind := "approved", rules := [] }
  else { kind := "denied-interactively-by-user", rules := [] }

/-- Embeds `_on_user_input_request`: with a registered `stream_callback` the
question is forwarded and a `Future[str]` awaited for at most
`ask_user_timeout` seconds, a timeout yielding the empty answer; with no
callback the future is resolved to `""` immediately. -/
def _on_user_input_request (has_stream_callback : Bool)
    (channel : Option (Nat × String)) (allow_freeform : Bool) : AskUserReply :=
  let futureValue : Option String :=
    if has_stream_callback then await_with_timeout ask_user_timeout channel
    else some ""
  { answer := futureValue.getD "", wasFreeform := allow_freeform }

/-- The session-id resolution of `execute_command`:
`session_id or (self._session_map.get(key) if continue_session else None)`. -/
def resolved_session_id (m : SessionMap) (key : String)
    (session_id : Option String) (continue_session : Bool) : Option String :=
  if optTruthy session_id then session_id
  else if continue_session then m key else none

/-- Tail of `execute_command` once a session `sess` is at hand (after the
resume-or-create step, whose attempted actions are `acts`): send the prompt,
and on success return the response and store `session.session_id` under `key`;
an `asyncio.TimeoutError` becomes `ClaudeTimeoutError`, any other exception is
wrapped as `ClaudeProcessError`. -/
def finishSession (beh : SDKBehavior) (budget : Nat) (m : SessionMap)
    (key : String) (acts : List ClientAction) (sess : String) : SDKExecResult :=
  match beh.send_and_wait sess with
  | .ok content =>
      { actions := acts,
        outcome := .ok { content := content, session_id := sess },
        session_map := fun k => if k = key then some sess else m k }
  | .timeout =>
      { actions := acts,
        outcome := .error (.timeoutError
          ("Copilot SDK timed out after " ++ toString budget ++ "s")),
        session_map := m }
  | .failed msg =>
      { actions := acts,
        outcome := .error (.processError ("Copilot SDK error: " ++ msg)),
        session_map := m }

/-- The resume-or-create step of `execute_command`: when the resolved session
id is truthy and continuation is requested, try `client.resume_session` and on
any exception fall back to `client.create_session`; otherwise create directly.
A `create_session` exception is wrapped by the outer handler as
`ClaudeProcessError`. -/
def sdkGo (beh : SDKBehavior) (budget : Nat) (m : SessionMap) (key : String)
    (csid : Option String) (continue_session : Bool) : SDKExecResult :=
  if optTruthy csid && continue_session then
    match beh.resume_session (csid.getD "") with
    | .ok sess => finishSession beh budget m key [.resume (csid.getD "")] sess
    | .error _ =>
        match beh.create_session with
        | .ok sess =>
            finishSession beh budget m key [.resume (csid.getD ""), .create] sess
        | .error e =>
            { actions := [.resume (csid.getD ""), .create],
              outcome := .error (.processError ("Copilot SDK error: " ++ e)),
              session_map := m }
  else
    match beh.create_session with
    | .ok sess => finishSession beh budget m key [.create] sess
    | .error e =>
        { actions := [.create],
          outcome := .error (.processError ("Copilot SDK error: " ++ e)),
          session_map := m }

/-- Embeds the session-management control flow of
`CopilotSDKManager.execute_command`: resolve the session id for the
`(user_id, working_directory)` key, resume or create a session, send the
prompt, and on success store the session id in the session map. -/
def execute_command (beh : SDKBehavior) (budget : Nat) (m : SessionMap)
    (user_id : Int) (working_directory : String)
    (session_id : Option String) (continue_session : Bool) : SDKExecResult :=
  sdkGo beh budget m (_session_key user_id working_directory)
    (resolved_session_id m (_session_key user_id working_directory)
      session_id continue_session)
    continue_session

end CopilotSDKManager

/-- Record of a sub-execution attempted by `execute_full`: the SDK attempt or
the CLI fallback, with the arguments each receives. -/
inductive ExecCall where
  | sdkCall (prompt : String) (working_directory : String) (user_id : Int)
      (session_id : Option String) (continue_session : Bool)
  | cliCall (prompt : String) (working_directory : String)
      (session_id : Option String) (continue_session : Bool)
deriving DecidableEq, Repr

/-- The facade response type (`ClaudeResponse`), built field by field from the
winning Copilot response. -/
structure ClaudeResponse where
  content : String
  session_id : String
deriving DecidableEq, Repr

/-- Result of one `execute_full`: the ordered sub-executions attempted and the
returned value or propagated exception. -/
structure FullExecResult where
  calls : List ExecCall
  outcome : Except ExecError ClaudeResponse

namespace CopilotProcessManager

/-- Embeds `CopilotProcessManager.execute_full`: try the SDK path; on any
exception run the CLI path once, with the same prompt, working directory,
session id and continue flag (the CLI path takes no user id); convert the
winning response field by field; a failure of the CLI fallback propagates.
`sdkRun` and `cliRun` are the outcomes of the two sub-executions. -/
def execute_full (sdkRun cliRun : Except ExecError CopilotResponse)
    (prompt working_directory : String) (user_id : Int)
    (session_id : Option String) (continue_session : Bool) : FullExecResult :=
  match sdkRun with
  | .ok r =>
      { calls := [.sdkCall prompt working_directory user_id session_id
          continue_session],
        outcome := .ok { content := r.content, session_id := r.session_id } }
  | .error _ =>
      match cliRun with
      | .ok r =>
          { calls := [.sdkCall prompt working_directory user_id session_id
                continue_session,
              .cliCall prompt working_directory session_id continue_session],
            outcome := .ok { content := r.content, session_id := r.session_id } }
      | .error e =>
          { calls := [.sdkCall prompt working_directory user_id session_id
                continue_session,
              .cliCall prompt working_directory session_id continue_session],
            outcome := .error e }

end CopilotProcessManager

/-- Example client behavior: resume echoes the requested id, create yields
`"sess-1"`, send succeeds with `"done"`. -/
def exampleBehavior : SDKBehavior :=
  { resume_session := fun s => .ok s,
    create_session := .ok "sess-1",
    send_and_wait := fun _ => .ok "done" }

/-- Example client behavior whose resume always raises: create yields
`"sess-2"`, send succeeds with `"done"`. -/
def exampleBehaviorResumeFails : SDKBehavior :=
  { resume_session := fun _ => .error "resume boom",
    create_session := .ok "sess-2",
    send_and_wait := fun _ => .ok "done" }

/-- The empty session map. -/
def emptySessionMap : SessionMap := fun _ => none

/-- Example session map with two entries. -/
def exampleSessionMap : SessionMap :=
  fun k => if k = "1:/alpha" then some "sess-a"
           else if k = "2:/beta" then some "sess-b" else none

/-- C3: the command built for a new session never contains the resume flag, and
the command built for a continuation with a truthy session id carries
`["--resume", session_id]` as an adjacent pair.  The hypotheses exclude the
degenerate inputs in which the binary path, the prompt text or the model name
is itself the literal string `"--resume"` (in which case that token appears in
the list as an argument value, not as a flag). -/
theorem build_command_resume_iff (cb : Option String) (prompt model : String)
    (session_id : Option String) (continue_session : Bool)
    (hb : CopilotProcessManager._get_copilot_binary cb ≠ "--resume")
    (hp : prompt ≠ "--resume") (hm : model ≠ "--resume") :
    ("--resume" ∈ CopilotProcessManager._build_command cb prompt session_id
        continue_session model
      ↔ continue_session = true ∧ optTruthy session_id = true)
    ∧ (∀ s, continue_session = true → session_id = some s → s ≠ "" →
        hasAdjPair "--resume" s (CopilotProcessManager._build_command cb prompt
          session_id continue_session model) = true) := by
  constructor
  · unfold CopilotProcessManager._build_command
    cases hc : continue_session && optTruthy session_id with
    | true =>
      simp only [if_pos rfl, hc, if_true]
      constructor
      · intro _
        exact ⟨(Bool.and_eq_true _ _ ▸ hc).1, (Bool.and_eq_true _ _ ▸ hc).2⟩
      · intro _
        split <;> simp
    | false =>
      simp only [hc, if_false]
      constructor
      · intro hmem
        exfalso
        split at hmem <;> simp at hmem <;>
          first
            | exact hmem.elim (fun h => hb h.symm)
                (fun h2 => h2.elim (fun h => hp h.symm) (fun h => hm h.symm))
            | exact hmem.elim (fun h => hb h.symm) (fun h => hp h.symm)
      · rintro ⟨h1, h2⟩
        rw [h1, h2] at hc
        simp at hc
  · intro s hcont hsid hs
    unfold CopilotProcessManager._build_command
    have htr : optTruthy session_id = true := by
      rw [hsid]; simp [optTruthy, hs]
    rw [hcont, htr]
    simp only [Bool.and_self, if_true]
    have : session_id.getD "" = s := by rw [hsid]; rfl
    rw [this]
    split <;> simp [hasAdjPair, hb]

/-- Witness for `build_command_resume_iff` at a concrete continuation input. -/
theorem build_command_resume_iff_witness :
    (("--resume" ∈ CopilotProcessManager._build_command (some "/bin/copilot") "hello"
        (some "abc-123") true "gpt-5-mini"
      ↔ true = true ∧ optTruthy (some "abc-123") = true)
    ∧ (∀ s, true = true → (some "abc-123" : Option String) = some s → s ≠ "" →
        hasAdjPair "--resume" s (CopilotProcessManager._build_command (some "/bin/copilot")
          "hello" (some "abc-123") true "gpt-5-mini") = true)) :=
  build_command_resume_iff (some "/bin/copilot") "hello" "gpt-5-mini" (some "abc-123") true
    (by decide) (by decide) (by decide)

/-- C9: every command built by `_build_command` carries
`["-p", prompt, "--allow-all", "-s"]` as a contiguous run, so on the CLI
fallback path every privileged action is auto-approved unconditionally. -/
theorem build_command_always_allow_all (cb : Option String) (prompt model : String)
    (session_id : Option String) (continue_session : Bool) :
    ∃ pre post,
      CopilotProcessManager._build_command cb prompt session_id continue_session model
        = pre ++ ["-p", prompt, "--allow-all", "-s"] ++ post := by
  unfold CopilotProcessManager._build_command
  refine ⟨if continue_session && optTruthy session_id then
      [CopilotProcessManager._get_copilot_binary cb, "--resume", session_id.getD ""]
    else [CopilotProcessManager._get_copilot_binary cb],
    if model != "" then ["--model", model] else [], ?_⟩
  split <;> split <;> simp

/-- C4: `execute_command` raises `ClaudeProcessError` exactly when the
subprocess completed with a non-zero return code and whitespace-only stdout,
and in that case (with non-blank stderr) the message carries the stripped
stderr text. -/
theorem cli_process_error_iff (budget : Nat) (comm : CommOutcome) (pid : String)
    (active : List String) (found : Option String) :
    ((∃ m, (CopilotProcessManager.execute_command budget comm pid active found).outcome
        = .error (.processError m))
      ↔ ∃ rc out err, comm = .completed rc out err ∧ rc ≠ 0 ∧ pyStrip out = "")
    ∧ (∀ rc out err, comm = .completed rc out err → rc ≠ 0 → pyStrip out = "" →
        pyStrip err ≠ "" →
        (CopilotProcessManager.execute_command budget comm pid active found).outcome
          = .error (.processError ("Copilot error: " ++ pyStrip err))) := by
  constructor
  · cases comm with
    | spawnFailed msg => simp [CopilotProcessManager.execute_command]
    | timeout => simp [CopilotProcessManager.execute_command]
    | commFailed msg => simp [CopilotProcessManager.execute_command]
    | completed rc out err =>
      by_cases h : (rc != 0 && pyStrip out == "") = true
      · simp only [CopilotProcessManager.execute_command, h, if_true]
        simp only [Bool.and_eq_true, bne_iff_ne, ne_eq, beq_iff_eq] at h
        constructor
        · intro _
          exact ⟨rc, out, err, rfl, h.1, h.2⟩
        · intro _
          exact ⟨_, rfl⟩
      · simp only [CopilotProcessManager.execute_command, h, if_false]
        simp only [Bool.and_eq_true, bne_iff_ne, ne_eq, beq_iff_eq, not_and] at h
        constructor
        · rintro ⟨m, hm⟩
          exact absurd hm (by simp)
        · rintro ⟨rc', out', err', heq, hrc, hout⟩
          cases heq
          exact absurd hout (h hrc)
  · rintro rc out err rfl hrc hout herr
    have hb : (rc != 0 && pyStrip out == "") = true := by
      simp [bne_iff_ne, hrc, hout]
    simp only [CopilotProcessManager.execute_command, hb, if_true]
    have : (pyStrip err != "") = true := by simp [bne_iff_ne, herr]
    simp [this]

/-- Witness for `cli_process_error_iff`: a process exiting 1 with empty stdout
and stderr `"boom"` raises `ClaudeProcessError` with message
`"Copilot error: boom"`. -/
theorem cli_process_error_iff_witness :
    (CopilotProcessManager.execute_command 300 (.completed 1 "" "boom") "p1" [] none).outcome
      = .error (.processError ("Copilot error: " ++ pyStrip "boom")) :=
  (cli_process_error_iff 300 (.completed 1 "" "boom") "p1" [] none).2 1 "" "boom"
    rfl (by decide) (by decide) (by decide)

/-- C5: a timeout during subprocess communication force-kills the subprocess
and raises `ClaudeTimeoutError` carrying the configured budget. -/
theorem cli_timeout_kills (budget : Nat) (pid : String) (active : List String)
    (found : Option String) :
    (CopilotProcessManager.execute_command budget .timeout pid active found).killed = true
    ∧ (CopilotProcessManager.execute_command budget .timeout pid active found).outcome
        = .error (.timeoutError ("Copilot timed out after " ++ toString budget ++ "s")) := by
  constructor
  · simp [CopilotProcessManager.execute_command]
  · rfl

/-- C10: every invocation of `execute_command`, whether it returns or raises,
removes its generated process id in the `finally` cleanup, so the
`active_processes` table — and hence `get_active_process_count` — is unchanged
by a completed call (the generated id is a fresh UUID, hence not yet in the
table). -/
theorem cli_active_processes_restored (budget : Nat) (comm : CommOutcome) (pid : String)
    (active : List String) (found : Option String) (hfresh : pid ∉ active) :
    (CopilotProcessManager.execute_command budget comm pid active found).active_processes
        = active
    ∧ (CopilotProcessManager.execute_command budget comm pid active
        found).active_processes.length = active.length := by
  have key : (active ++ [pid]).erase pid = active := by
    rw [List.erase_append_right _ hfresh]
    simp
  have key2 : active.erase pid = active := List.erase_of_not_mem hfresh
  have hmain : (CopilotProcessManager.execute_command budget comm pid active
      found).active_processes = active := by
    cases comm with
    | spawnFailed msg => simpa [CopilotProcessManager.execute_command] using key2
    | timeout => simpa [CopilotProcessManager.execute_command] using key
    | commFailed msg => simpa [CopilotProcessManager.execute_command] using key
    | completed rc out err =>
      simp only [CopilotProcessManager.execute_command]
      split <;> simpa using key
  exact ⟨hmain, by rw [hmain]⟩

/-- Witness for `cli_active_processes_restored` with a fresh process id and a
non-empty prior table. -/
theorem cli_active_processes_restored_witness :
    (CopilotProcessManager.execute_command 300 .timeout "p2" ["p1"] none).active_processes
        = ["p1"]
    ∧ (CopilotProcessManager.execute_command 300 .timeout "p2" ["p1"]
        none).active_processes.length = ["p1"].length :=
  cli_active_processes_restored 300 .timeout "p2" ["p1"] none (by decide)

/-- The directory scan factors through the list of surviving workspace
records. -/
theorem findLoop_eq_selectBest (wd : String) (es : List SessionDirEntry)
    (acc : Option String × Option String) :
    CopilotProcessManager.findLoop wd es acc = selectBest (candidates wd es) acc := by
  induction es generalizing acc with
  | nil => rfl
  | cons e rest ih =>
    simp only [CopilotProcessManager.findLoop, candidates, List.filterMap_cons]
    cases h : CopilotProcessManager.entryCandidate wd e with
    | none => simpa [h] using ih _
    | some d => simpa [h, selectBest] using ih _

/-- The boolean lexicographic comparison agrees with the `Lex` order on
character lists. -/
theorem charListLt_iff_lex (l1 l2 : List Char) :
    charListLt l1 l2 = true ↔ List.Lex (· < ·) l1 l2 := by
  induction l1 generalizing l2 with
  | nil =>
    cases l2 with
    | nil => exact iff_of_false (by simp [charListLt]) (fun h => by cases h)
    | cons b bs => exact iff_of_true rfl List.Lex.nil
  | cons a as ih =>
    cases l2 with
    | nil => exact iff_of_false (by simp [charListLt]) (fun h => by cases h)
    | cons b bs =>
      by_cases hab : a < b
      · exact iff_of_true (by simp [charListLt, hab]) (List.Lex.rel hab)
      · by_cases heq : a = b
        · subst heq
          constructor
          · intro h
            have hrec : charListLt as bs = true := by
              simpa [charListLt, hab] using h
            exact List.Lex.cons ((ih bs).mp hrec)
          · intro h
            have hrec : List.Lex (· < ·) as bs := by
              cases h with
              | cons h => exact h
              | rel h => exact absurd h hab
            simp [charListLt, hab, (ih bs).mpr hrec]
        · refine iff_of_false (by simp [charListLt, hab, heq]) ?_
          intro h
          cases h with
          | cons h => exact absurd rfl heq
          | rel h => exact hab h

/-- `pyStrLt` agrees with the linear order on `String`. -/
theorem pyStrLt_iff (s t : String) : pyStrLt s t = true ↔ s < t := by
  rw [pyStrLt, charListLt_iff_lex, String.lt_iff_toList_lt]
  exact Iff.rfl

/-- Invariant of the accumulator loop started from a non-empty best pair: the
final pair comes from the initial pair or from the list, its timestamp
dominates the initial one, and it dominates every timestamp in the list. -/
theorem selectBest_from_some (ds : List WorkspaceData) (i u : String) :
    ∃ j v, selectBest ds (some i, some u) = (some j, some v)
      ∧ ((j = i ∧ v = u) ∨ ∃ d ∈ ds, j = d.id ∧ v = d.updated_at)
      ∧ u ≤ v ∧ ∀ d ∈ ds, d.updated_at ≤ v := by
  induction ds generalizing i u with
  | nil => exact ⟨i, u, rfl, Or.inl ⟨rfl, rfl⟩, le_refl _, by simp⟩
  | cons d ds ih =>
    by_cases h : u < d.updated_at
    · have hb : pyStrLt u d.updated_at = true := (pyStrLt_iff u d.updated_at).mpr h
      obtain ⟨j, v, heq, hsrc, hle, hall⟩ := ih d.id d.updated_at
      refine ⟨j, v, ?_, ?_, ?_, ?_⟩
      · simpa [selectBest, hb] using heq
      · rcases hsrc with ⟨h1, h2⟩ | ⟨d', hd', h1, h2⟩
        · exact Or.inr ⟨d, by simp, h1, h2⟩
        · exact Or.inr ⟨d', by simp [hd'], h1, h2⟩
      · exact le_trans (le_of_lt h) hle
      · intro d' hd'
        rcases List.mem_cons.1 hd' with rfl | hd'
        · exact hle
        · exact hall d' hd'
    · have hb : pyStrLt u d.updated_at = false := by
        rw [Bool.eq_false_iff]
        intro hx
        exact h ((pyStrLt_iff u d.updated_at).mp hx)
      obtain ⟨j, v, heq, hsrc, hle, hall⟩ := ih i u
      refine ⟨j, v, ?_, ?_, hle, ?_⟩
      · simpa [selectBest, hb] using heq
      · rcases hsrc with hl | ⟨d', hd', h1, h2⟩
        · exact Or.inl hl
        · exact Or.inr ⟨d', by simp [hd'], h1, h2⟩
      · intro d' hd'
        rcases List.mem_cons.1 hd' with rfl | hd'
        · exact le_trans (not_lt.1 h) hle
        · exact hall d' hd'

/-- C6: `_find_session_id_for_directory` returns `none` exactly when the
session-state directory is missing or no entry survives the skip conditions;
a returned id belongs to a surviving entry whose `updated_at` dominates every
surviving entry; and an entry that is skipped (broken `workspace.yaml`, etc.)
can be inserted or removed anywhere without changing the result. -/
theorem find_session_id_for_directory_spec (dir_exists : Bool)
    (entries : List SessionDirEntry) (wd : String) :
    (dir_exists = false →
      CopilotProcessManager._find_session_id_for_directory dir_exists entries wd = none)
    ∧ (CopilotProcessManager._find_session_id_for_directory dir_exists entries wd = none
        ↔ dir_exists = false ∨ candidates wd entries = [])
    ∧ (∀ sid,
        CopilotProcessManager._find_session_id_for_directory dir_exists entries wd
          = some sid →
        ∃ d ∈ candidates wd entries, d.id = sid
          ∧ ∀ d' ∈ candidates wd entries, d'.updated_at ≤ d.updated_at)
    ∧ (∀ e es1 es2, CopilotProcessManager.entryCandidate wd e = none →
        CopilotProcessManager._find_session_id_for_directory dir_exists
            (es1 ++ e :: es2) wd
          = CopilotProcessManager._find_session_id_for_directory dir_exists
              (es1 ++ es2) wd) := by
  refine ⟨?_, ?_, ?_, ?_⟩
  · intro h
    simp [CopilotProcessManager._find_session_id_for_directory, h]
  · cases dir_exists with
    | false => simp [CopilotProcessManager._find_session_id_for_directory]
    | true =>
      simp only [CopilotProcessManager._find_session_id_for_directory, if_true,
        Bool.true_eq_false, false_or]
      rw [findLoop_eq_selectBest]
      cases hc : candidates wd entries with
      | nil => simp [selectBest]
      | cons c cs =>
        simp only [selectBest]
        obtain ⟨j, v, heq, _, _, _⟩ := selectBest_from_some cs c.id c.updated_at
        rw [heq]
        simp
  · intro sid hsid
    cases dir_exists with
    | false =>
      simp [CopilotProcessManager._find_session_id_for_directory] at hsid
    | true =>
      simp only [CopilotProcessManager._find_session_id_for_directory, if_true] at hsid
      rw [findLoop_eq_selectBest] at hsid
      cases hc : candidates wd entries with
      | nil =>
        rw [hc] at hsid
        simp [selectBest] at hsid
      | cons c cs =>
        rw [hc] at hsid
        simp only [selectBest] at hsid
        obtain ⟨j, v, heq, hsrc, hle, hall⟩ := selectBest_from_some cs c.id c.updated_at
        rw [heq] at hsid
        simp only at hsid
        cases hsid
        rcases hsrc with ⟨h1, h2⟩ | ⟨d', hd', h1, h2⟩
        · refine ⟨c, by simp, h1.symm, ?_⟩
          intro d' hd'
          rcases List.mem_cons.1 hd' with rfl | hd'
          · exact h2 ▸ hle
          · exact h2 ▸ hall d' hd'
        · refine ⟨d', by simp [hd'], h1.symm, ?_⟩
          intro d'' hd''
          rcases List.mem_cons.1 hd'' with rfl | hd''
          · exact h2 ▸ hle
          · exact h2 ▸ hall d'' hd''
  · intro e es1 es2 he
    have hcand : candidates wd (es1 ++ e :: es2) = candidates wd (es1 ++ es2) := by
      simp [candidates, List.filterMap_append, List.filterMap_cons, he]
    unfold CopilotProcessManager._find_session_id_for_directory
    rw [findLoop_eq_selectBest, findLoop_eq_selectBest, hcand]

/-- Witness for `find_session_id_for_directory_spec` on the example listing:
the missing-directory case, the freshest-entry selection, and the irrelevance
of a broken entry. -/
theorem find_session_id_for_directory_spec_witness :
    (CopilotProcessManager._find_session_id_for_directory false exampleEntries
        "/project" = none)
    ∧ (∃ d ∈ candidates "/project" exampleEntries, d.id = "sess-new"
        ∧ ∀ d' ∈ candidates "/project" exampleEntries,
            d'.updated_at ≤ d.updated_at)
    ∧ (CopilotProcessManager._find_session_id_for_directory true
          (exampleEntryBad :: exampleEntries) "/project"
        = CopilotProcessManager._find_session_id_for_directory true
            exampleEntries "/project") :=
  ⟨(find_session_id_for_directory_spec false exampleEntries "/project").1 rfl,
   (find_session_id_for_directory_spec true exampleEntries "/project").2.2.1
     "sess-new" (by decide),
   (find_session_id_for_directory_spec true exampleEntries "/project").2.2.2
     exampleEntryBad [] exampleEntries rfl⟩

/-- C7: `forget_session` removes exactly the entry for the key built from the
given `(user_id, working_directory)`: that key maps to nothing afterwards,
every other key's mapping is unchanged, and forgetting an absent key leaves
the map unchanged. -/
theorem forget_session_spec (m : SessionMap) (u : Int) (w : String) :
    (CopilotSDKManager.forget_session m u w (CopilotSDKManager._session_key u w) = none)
    ∧ (∀ k, k ≠ CopilotSDKManager._session_key u w →
        CopilotSDKManager.forget_session m u w k = m k)
    ∧ (m (CopilotSDKManager._session_key u w) = none →
        CopilotSDKManager.forget_session m u w = m) := by
  refine ⟨by simp [CopilotSDKManager.forget_session], ?_, ?_⟩
  · intro k hk
    simp [CopilotSDKManager.forget_session, hk]
  · intro habs
    funext k
    by_cases hk : k = CopilotSDKManager._session_key u w
    · subst hk
      simp [CopilotSDKManager.forget_session, habs.symm]
    · simp [CopilotSDKManager.forget_session, hk]

/-- Witness for `forget_session_spec` on the two-entry example map. -/
theorem forget_session_spec_witness :
    (CopilotSDKManager.forget_session exampleSessionMap 1 "/alpha"
        (CopilotSDKManager._session_key 1 "/alpha") = none)
    ∧ (CopilotSDKManager.forget_session exampleSessionMap 1 "/alpha" "2:/beta"
        = exampleSessionMap "2:/beta")
    ∧ (CopilotSDKManager.forget_session exampleSessionMap 3 "/gamma"
        = exampleSessionMap) :=
  ⟨(forget_session_spec exampleSessionMap 1 "/alpha").1,
   (forget_session_spec exampleSessionMap 1 "/alpha").2.1 "2:/beta" (by decide),
   (forget_session_spec exampleSessionMap 3 "/gamma").2.2 (by decide)⟩

/-- C1: the rendezvous budgets are 120 s (permission) and 300 s (ask-user);
with a registered callback a permission future not resolved within its budget
yields the denied reply and an ask-user future not resolved within its budget
yields the empty answer; with no registered callback the permission future is
immediately resolved approved and the ask-user future immediately resolved to
the empty string, whatever the external channel would do. -/
theorem permission_and_input_timeouts :
    CopilotSDKManager.permission_timeout = 120
    ∧ CopilotSDKManager.ask_user_timeout = 300
    ∧ (∀ channel : Option (Nat × Bool),
        (∀ t v, channel = some (t, v) → CopilotSDKManager.permission_timeout ≤ t) →
        CopilotSDKManager._on_permission_request true channel
          = { kind := "denied-interactively-by-user", rules := [] })
    ∧ (∀ (channel : Option (Nat × String)) (af : Bool),
        (∀ t v, channel = some (t, v) → CopilotSDKManager.ask_user_timeout ≤ t) →
        (CopilotSDKManager._on_user_input_request true channel af).answer = "")
    ∧ (∀ channel : Option (Nat × Bool),
        CopilotSDKManager._on_permission_request false channel
          = { kind := "approved", rules := [] })
    ∧ (∀ (channel : Option (Nat × String)) (af : Bool),
        (CopilotSDKManager._on_user_input_request false channel af).answer = "") := by
  refine ⟨rfl, rfl, ?_, ?_, fun _ => rfl, fun _ _ => rfl⟩
  · intro channel hlate
    cases channel with
    | none => rfl
    | some p =>
      obtain ⟨t, v⟩ := p
      have ht := hlate t v rfl
      have : ¬ t < CopilotSDKManager.permission_timeout := not_lt.mpr ht
      simp [CopilotSDKManager._on_permission_request,
        CopilotSDKManager.await_with_timeout, this]
  · intro channel af hlate
    cases channel with
    | none => rfl
    | some p =>
      obtain ⟨t, v⟩ := p
      have ht := hlate t v rfl
      have : ¬ t < CopilotSDKManager.ask_user_timeout := not_lt.mpr ht
      simp [CopilotSDKManager._on_user_input_request,
        CopilotSDKManager.await_with_timeout, this]

/-- Witness for `permission_and_input_timeouts`: a permission future resolved
only at 120 s is denied, a never-resolved ask-user future yields `""`, and
with no callback an (early, favorable) channel is irrelevant. -/
theorem permission_and_input_timeouts_witness :
    (CopilotSDKManager._on_permission_request true (some (120, true))
        = { kind := "denied-interactively-by-user", rules := [] })
    ∧ ((CopilotSDKManager._on_user_input_request true none true).answer = "")
    ∧ (CopilotSDKManager._on_permission_request false (some (0, false))
        = { kind := "approved", rules := [] })
    ∧ ((CopilotSDKManager._on_user_input_request false (some (0, "hi")) false).answer = "") :=
  ⟨permission_and_input_timeouts.2.2.1 (some (120, true))
     (by intro t v h
         simp [CopilotSDKManager.permission_timeout] at *
         omega),
   permission_and_input_timeouts.2.2.2.1 none true (by intro t v h; simp at h),
   permission_and_input_timeouts.2.2.2.2.1 (some (0, false)),
   permission_and_input_timeouts.2.2.2.2.2 (some (0, "hi")) false⟩

/-- The actions of `finishSession` are exactly the actions of the
resume-or-create step, whatever the send outcome. -/
theorem finishSession_actions (beh : SDKBehavior) (budget : Nat) (m : SessionMap)
    (key : String) (acts : List ClientAction) (sess : String) :
    (CopilotSDKManager.finishSession beh budget m key acts sess).actions = acts := by
  unfold CopilotSDKManager.finishSession
  cases beh.send_and_wait sess <;> rfl

/-- On a successful send, `finishSession` returns the content and the used
session's id. -/
theorem finishSession_outcome_ok (beh : SDKBehavior) (budget : Nat)
    (m : SessionMap) (key : String) (acts : List ClientAction) (sess c : String)
    (h : beh.send_and_wait sess = .ok c) :
    (CopilotSDKManager.finishSession beh budget m key acts sess).outcome
      = .ok { content := c, session_id := sess } := by
  unfold CopilotSDKManager.finishSession
  rw [h]

/-- A successful send stores the session id of the used session under the key. -/
theorem finishSession_stores (beh : SDKBehavior) (budget : Nat) (m : SessionMap)
    (key : String) (acts : List ClientAction) (sess : String) (resp : CopilotResponse)
    (h : (CopilotSDKManager.finishSession beh budget m key acts sess).outcome = .ok resp) :
    (CopilotSDKManager.finishSession beh budget m key acts sess).session_map key
      = some resp.session_id := by
  unfold CopilotSDKManager.finishSession at h ⊢
  cases hs : beh.send_and_wait sess with
  | ok c =>
    rw [hs] at h
    simp only [Except.ok.injEq] at h
    subst h
    simp
  | timeout =>
    rw [hs] at h
    simp at h
  | failed msg =>
    rw [hs] at h
    simp at h

/-- A successful resume-or-create-then-send stores the returned session id
under the key. -/
theorem sdkGo_success_stores (beh : SDKBehavior) (budget : Nat) (m : SessionMap)
    (key : String) (csid : Option String) (cont : Bool) (resp : CopilotResponse)
    (h : (CopilotSDKManager.sdkGo beh budget m key csid cont).outcome = .ok resp) :
    (CopilotSDKManager.sdkGo beh budget m key csid cont).session_map key
      = some resp.session_id := by
  unfold CopilotSDKManager.sdkGo at h ⊢
  by_cases hc : (optTruthy csid && cont) = true
  · rw [if_pos hc] at h ⊢
    cases hr : beh.resume_session (csid.getD "") with
    | ok sess =>
      rw [hr] at h
      exact finishSession_stores beh budget m key _ sess resp h
    | error e =>
      rw [hr] at h
      cases hcr : beh.create_session with
      | ok sess =>
        rw [hcr] at h
        exact finishSession_stores beh budget m key _ sess resp h
      | error e2 =>
        rw [hcr] at h
        simp at h
  · rw [if_neg hc] at h ⊢
    cases hcr : beh.create_session with
    | ok sess =>
      rw [hcr] at h
      exact finishSession_stores beh budget m key _ sess resp h
    | error e2 =>
      rw [hcr] at h
      simp at h

/-- A successful `execute_command` stores the response's session id under the
caller's key in the resulting session map. -/
theorem sdk_success_stores (beh : SDKBehavior) (budget : Nat) (m : SessionMap)
    (uid : Int) (wd : String) (sid : Option String) (cont : Bool)
    (resp : CopilotResponse)
    (h : (CopilotSDKManager.execute_command beh budget m uid wd sid cont).outcome
      = .ok resp) :
    (CopilotSDKManager.execute_command beh budget m uid wd sid cont).session_map
      (CopilotSDKManager._session_key uid wd) = some resp.session_id :=
  sdkGo_success_stores beh budget m (CopilotSDKManager._session_key uid wd) _ cont resp h

/-- C2 (amended): after a successful call stored a (non-empty) session id for
a `(user_id, working_directory)` key, a further call for the same key that
requests continuation and passes no explicit session id attempts
`client.resume_session` with the stored id as its first client action; and
when that resume raises, a fresh session is created via `client.create_session`
instead of the error propagating (a successful create and send then yield a
successful outcome). -/
theorem sdk_resume_before_create (beh : SDKBehavior) (budget : Nat)
    (m : SessionMap) (uid : Int) (wd : String) (sid1 : Option String)
    (cont1 : Bool) (resp : CopilotResponse)
    (h1 : (CopilotSDKManager.execute_command beh budget m uid wd sid1 cont1).outcome
      = .ok resp)
    (hne : resp.session_id ≠ "")
    (sid2 : Option String) (h2 : optTruthy sid2 = false) :
    ((CopilotSDKManager.execute_command beh budget
        (CopilotSDKManager.execute_command beh budget m uid wd sid1 cont1).session_map
        uid wd sid2 true).actions.head? = some (.resume resp.session_id))
    ∧ (∀ e, beh.resume_session resp.session_id = .error e →
        (CopilotSDKManager.execute_command beh budget
          (CopilotSDKManager.execute_command beh budget m uid wd sid1 cont1).session_map
          uid wd sid2 true).actions = [.resume resp.session_id, .create])
    ∧ (∀ e s c, beh.resume_session resp.session_id = .error e →
        beh.create_session = .ok s → beh.send_and_wait s = .ok c →
        (CopilotSDKManager.execute_command beh budget
          (CopilotSDKManager.execute_command beh budget m uid wd sid1 cont1).session_map
          uid wd sid2 true).outcome = .ok { content := c, session_id := s }) := by
  have hstore := sdk_success_stores beh budget m uid wd sid1 cont1 resp h1
  have hres : CopilotSDKManager.resolved_session_id
      (CopilotSDKManager.execute_command beh budget m uid wd sid1 cont1).session_map
      (CopilotSDKManager._session_key uid wd) sid2 true = some resp.session_id := by
    unfold CopilotSDKManager.resolved_session_id
    rw [h2]
    simpa using hstore
  have htr : (optTruthy (some resp.session_id) && true) = true := by
    simp [optTruthy, hne]
  generalize hm1 : (CopilotSDKManager.execute_command beh budget m uid wd
      sid1 cont1).session_map = m1
  rw [hm1] at hres
  refine ⟨?_, ?_, ?_⟩
  · unfold CopilotSDKManager.execute_command
    rw [hres]
    unfold CopilotSDKManager.sdkGo
    rw [if_pos htr]
    simp only [Option.getD_some]
    cases hr : beh.resume_session resp.session_id with
    | ok sess => simp [finishSession_actions]
    | error e =>
      cases hcr : beh.create_session with
      | ok sess => simp [finishSession_actions]
      | error e2 => simp
  · intro e he
    unfold CopilotSDKManager.execute_command
    rw [hres]
    unfold CopilotSDKManager.sdkGo
    rw [if_pos htr]
    simp only [Option.getD_some]
    rw [he]
    cases hcr : beh.create_session with
    | ok sess => simp [finishSession_actions]
    | error e2 => simp
  · intro e s c he hcr hsw
    unfold CopilotSDKManager.execute_command
    rw [hres]
    unfold CopilotSDKManager.sdkGo
    rw [if_pos htr]
    simp only [Option.getD_some]
    rw [he, hcr]
    exact finishSession_outcome_ok beh budget _ _ _ s c hsw

/-- Counterexample to C2 as frozen: with the sample behavior, the first call
for the key `(7, "/work")` succeeds (storing `"sess-1"` in the session map),
yet a second call for the same key — passing `continue_session = False` —
performs no resume attempt at all: its only client action is `create`. -/
theorem sdk_second_call_no_resume_counterexample :
    ((CopilotSDKManager.execute_command exampleBehavior 300 emptySessionMap
        7 "/work" none false).outcome
      = .ok { content := "done", session_id := "sess-1" })
    ∧ ((CopilotSDKManager.execute_command exampleBehavior 300 emptySessionMap
        7 "/work" none false).session_map (CopilotSDKManager._session_key 7 "/work")
      = some "sess-1")
    ∧ ((CopilotSDKManager.execute_command exampleBehavior 300
        (CopilotSDKManager.execute_command exampleBehavior 300 emptySessionMap
          7 "/work" none false).session_map
        7 "/work" none false).actions = [ClientAction.create]) :=
  ⟨rfl, rfl, rfl⟩

/-- Witness for `sdk_resume_before_create`: the first call stores `"sess-2"`;
the continuation call resumes it first, falls back to `create` when the resume
raises, and still succeeds. -/
theorem sdk_resume_before_create_witness :
    ((CopilotSDKManager.execute_command exampleBehaviorResumeFails 300
        (CopilotSDKManager.execute_command exampleBehaviorResumeFails 300
          emptySessionMap 7 "/work" none false).session_map
        7 "/work" none true).actions.head? = some (.resume "sess-2"))
    ∧ ((CopilotSDKManager.execute_command exampleBehaviorResumeFails 300
        (CopilotSDKManager.execute_command exampleBehaviorResumeFails 300
          emptySessionMap 7 "/work" none false).session_map
        7 "/work" none true).actions
      = [.resume "sess-2", .create])
    ∧ ((CopilotSDKManager.execute_command exampleBehaviorResumeFails 300
        (CopilotSDKManager.execute_command exampleBehaviorResumeFails 300
          emptySessionMap 7 "/work" none false).session_map
        7 "/work" none true).outcome
      = .ok { content := "done", session_id := "sess-2" }) :=
  ⟨(sdk_resume_before_create exampleBehaviorResumeFails 300 emptySessionMap
      7 "/work" none false ⟨"done", "sess-2"⟩ rfl (by decide) none rfl).1,
   (sdk_resume_before_create exampleBehaviorResumeFails 300 emptySessionMap
      7 "/work" none false ⟨"done", "sess-2"⟩ rfl (by decide) none rfl).2.1
     "resume boom" rfl,
   (sdk_resume_before_create exampleBehaviorResumeFails 300 emptySessionMap
      7 "/work" none false ⟨"done", "sess-2"⟩ rfl (by decide) none rfl).2.2
     "resume boom" "sess-2" "done" rfl rfl rfl⟩

/-- C8: when the SDK execution raises any exception, `execute_full` attempts
exactly one CLI fallback, with the same prompt, working directory, session id
and continue flag; a success of that fallback is returned converted, and a
failure of that single fallback propagates to the caller with no further
retry. -/
theorem execute_full_single_fallback (sdkRun cliRun : Except ExecError CopilotResponse)
    (prompt wd : String) (uid : Int) (sid : Option String) (cont : Bool)
    (e : ExecError) (h : sdkRun = .error e) :
    ((CopilotProcessManager.execute_full sdkRun cliRun prompt wd uid sid cont).calls
      = [.sdkCall prompt wd uid sid cont, .cliCall prompt wd sid cont])
    ∧ (∀ r, cliRun = .ok r →
        (CopilotProcessManager.execute_full sdkRun cliRun prompt wd uid sid cont).outcome
          = .ok { content := r.content, session_id := r.session_id })
    ∧ (∀ e2, cliRun = .error e2 →
        (CopilotProcessManager.execute_full sdkRun cliRun prompt wd uid sid cont).outcome
          = .error e2) := by
  subst h
  refine ⟨?_, ?_, ?_⟩
  · unfold CopilotProcessManager.execute_full
    cases cliRun <;> rfl
  · intro r hr
    subst hr
    rfl
  · intro e2 hr
    subst hr
    rfl

/-- Witness for `execute_full_single_fallback`: an SDK failure followed by a
successful CLI run, and the same SDK failure followed by a failing CLI run. -/
theorem execute_full_single_fallback_witness :
    ((CopilotProcessManager.execute_full (.error (.processError "sdk down"))
        (.ok { content := "out", session_id := "s9" }) "hi" "/w" 7 none true).calls
      = [.sdkCall "hi" "/w" 7 none true, .cliCall "hi" "/w" none true])
    ∧ ((CopilotProcessManager.execute_full (.error (.processError "sdk down"))
        (.ok { content := "out", session_id := "s9" }) "hi" "/w" 7 none true).outcome
      = .ok { content := "out", session_id := "s9" })
    ∧ ((CopilotProcessManager.execute_full (.error (.processError "sdk down"))
        (.error (.timeoutError "cli late")) "hi" "/w" 7 none true).outcome
      = .error (.timeoutError "cli late")) :=
  ⟨(execute_full_single_fallback (.error (.processError "sdk down"))
      (.ok { content := "out", session_id := "s9" }) "hi" "/w" 7 none true
      (.processError "sdk down") rfl).1,
   (execute_full_single_fallback (.error (.processError "sdk down"))
      (.ok { content := "out", session_id := "s9" }) "hi" "/w" 7 none true
      (.processError "sdk down") rfl).2.1 { content := "out", session_id := "s9" } rfl,
   (execute_full_single_fallback (.error (.processError "sdk down"))
      (.error (.timeoutError "cli late")) "hi" "/w" 7 none true
      (.processError "sdk down") rfl).2.2 (.timeoutError "cli late") rfl⟩
